import Mathlib

/-!
Verification of the TH-D72 clone-mode driver (chirp/drivers/thd72.py).

The driver is embedded shallowly: the bitwise-parsed memory object becomes a
record of typed tables, Python exceptions become an explicit error type, and
the serial pipe becomes an infinite byte stream plus a log of written bytes.
Python exceptions abort a call; the model returns the error without the
partially mutated state (no claim below observes state after an exception).
-/

namespace Thd72

/-- Errors corresponding to the Python exceptions the driver can raise:
InvalidMemoryLocation, IndexError on a table, KeyError on a dict lookup,
ValueError from list.index, struct.error from struct.pack, and the
protocol Exceptions of read_block. -/
inductive Err where
  | invalidLocation
  | outOfBounds
  | keyError
  | valueError
  | packError
  | invalidResponse
  | noAck
  deriving DecidableEq, Repr

/-- One entry of the flag[1032] table (mem_format offset 0x0c00, 2 bytes per
entry): 7-bit disabled field, 1-bit unknown0, and the skip byte. -/
structure Flag where
  disabled : Nat
  unknown0 : Nat
  skip : Nat
  deriving DecidableEq, Repr

/-- One entry of the memory[1032] table (mem_format offset 0x1500, 16 bytes
per entry). tone_mode and duplex are the two nibbles of byte 6,
most-significant field first. -/
structure MemRec where
  freq : Nat
  unknown1 : Nat
  mode : Nat
  tone_mode : Nat
  duplex : Nat
  rtone : Nat
  ctone : Nat
  dtcs : Nat
  cross_mode : Nat
  offset : Nat
  unknown2 : Nat
  deriving DecidableEq, Repr

/-- One 8-byte name record (channel_name / wx_name tables). -/
structure NameRec where
  name : List Nat
  deriving DecidableEq, Repr

/-- Modelled from the spec: the external lookup tables supplied by the host
framework (chirp_common.TONES, chirp_common.DTCS_CODES,
chirp_common.CROSS_MODES, chirp_common.SKIP_VALUES), which are outside this
repository and are "supplied as external lookup data".  Tone values are kept
as naturals (tenths of Hz); skip values are the strings of SKIP_VALUES. -/
structure Tables where
  tones : List Nat
  dtcsCodes : List Nat
  crossModes : List Nat
  skipValues : List String
  deriving DecidableEq, Repr

/-- The bitwise-parsed memory object of process_mmap plus the driver's
_dirty_blocks list.  group_name and frontmatter are never touched by the
driver code and are omitted. -/
structure RadioState where
  flag : List Flag
  memory : List MemRec
  channel_name : List NameRec
  wx_name : List NameRec
  dirty : List Nat
  deriving DecidableEq, Repr

/-- The table lengths fixed by mem_format: flag[1032], memory[1032],
channel_name[1000], wx_name[10]. -/
def RadioState.wf (st : RadioState) : Prop :=
  st.flag.length = 1032 ∧ st.memory.length = 1032 ∧
    st.channel_name.length = 1000 ∧ st.wx_name.length = 10

/-- Modelled from the spec: the host framework's logical channel
(chirp_common.Memory), outside this repository.  A freshly constructed
Memory has all fields default-initialized; the driver then populates some
of them. -/
structure Memory where
  number : Int := 0
  empty : Bool := false
  extd_number : String := ""
  name : List Nat := []
  freq : Nat := 0
  tmode : String := ""
  rtone : Nat := 0
  ctone : Nat := 0
  dtcs : Nat := 0
  duplex : String := ""
  offset : Nat := 0
  mode : String := ""
  skip : String := ""
  cross_mode : Nat := 0
  immutable : List String := []
  deriving DecidableEq, Repr

instance : Inhabited Memory := ⟨{}⟩

/-- TMODES dict of the source. -/
def TMODES : List (Nat × String) :=
  [(0x08, "Tone"), (0x04, "TSQL"), (0x02, "DTCS"), (0x01, "Cross"), (0x00, "")]

/-- TMODES_REV dict of the source. -/
def TMODES_REV : List (String × Nat) :=
  [("", 0x00), ("Cross", 0x01), ("DTCS", 0x02), ("TSQL", 0x04), ("Tone", 0x08)]

/-- MODES dict of the source. -/
def MODES : List (Nat × String) := [(0x00, "FM"), (0x01, "NFM"), (0x02, "AM")]

/-- MODES_REV dict of the source. -/
def MODES_REV : List (String × Nat) := [("FM", 0x00), ("NFM", 0x01), ("AM", 0x02)]

/-- DUPLEX dict of the source. -/
def DUPLEX : List (Nat × String) :=
  [(0x00, ""), (0x01, "+"), (0x02, "-"), (0x04, "split")]

/-- DUPLEX_REV dict of the source. -/
def DUPLEX_REV : List (String × Nat) :=
  [("", 0x00), ("+", 0x01), ("-", 0x02), ("split", 0x04)]

/-- THD72_SPECIAL, built exactly as the two source loops and the two final
assignments build it (insertion order preserved, keys distinct). -/
def THD72_SPECIAL : List (String × Nat) :=
  (((List.range 10).map fun i =>
      [("L" ++ toString i, 1000 + i * 2), ("U" ++ toString i, 1000 + i * 2 + 1)]).flatten
    ++ (List.range 10).map fun i => ("WX" ++ toString (i + 1), 1020 + i))
    ++ [("C VHF", 1030), ("C UHF", 1031)]

/-- THD72_SPECIAL_REV: the dict built by iterating THD72_SPECIAL.items and
swapping key and value. -/
def THD72_SPECIAL_REV : List (Nat × String) :=
  THD72_SPECIAL.map fun p => (p.2, p.1)

/-- max(THD72_SPECIAL.values()). -/
def THD72_SPECIAL_max : Nat :=
  (THD72_SPECIAL.map fun p => p.2).foldr Nat.max 0

/-- add_dirty_block: block = offset / 256, appended only if absent, then the
list is sorted ascending (Python list.sort). -/
def addDirty (d : List Nat) (off : Nat) : List Nat :=
  let block := off / 256
  let d1 := if block ∈ d then d else d ++ [block]
  d1.insertionSort (· ≤ ·)

/-- Byte offset of flag[n] in the image (0x0c00 + 2 bytes per entry). -/
def flagOffset (n : Nat) : Nat := 0xc00 + 2 * n

/-- Byte offset of memory[n] in the image (0x1500 + 16 bytes per entry). -/
def memOffset (n : Nat) : Nat := 0x1500 + 16 * n

/-- Byte offset of channel_name[n] in the image (0x5e00 + 8 bytes). -/
def nameOffset (n : Nat) : Nat := 0x5e00 + 8 * n

/-- Byte offset of wx_name[i] in the image (0x7de0 + 8 bytes). -/
def wxNameOffset (i : Nat) : Nat := 0x7de0 + 8 * i

/-- The six byte values stripped by Python str.rstrip(). -/
def isSpaceByte (b : Nat) : Bool :=
  b == 0x20 || b == 0x09 || b == 0x0a || b == 0x0b || b == 0x0c || b == 0x0d

/-- str.rstrip() on a byte string. -/
def rstripBytes (l : List Nat) : List Nat :=
  (l.reverse.dropWhile isSpaceByte).reverse

/-- Name decode of get_channel_name: truncate at the first 0xff (the
appended sentinel guarantees one is found), then rstrip. -/
def decodeName (l : List Nat) : List Nat :=
  rstripBytes (l.takeWhile fun b => b != 0xff)

/-- Name encode of set_channel_name: (name[:8] + 8 bytes of 0xff)[:8]. -/
def encodeName (l : List Nat) : List Nat :=
  (l.take 8 ++ List.replicate 8 0xff).take 8

/-- get_channel_name. -/
def get_channel_name (st : RadioState) (number : Nat) :
    Except Err (List Nat) :=
  if number < 999 then
    match st.channel_name[number]? with
    | some r => .ok (decodeName r.name)
    | none => .error .outOfBounds
  else if 1020 ≤ number ∧ number < 1030 then
    match st.wx_name[number - 1020]? with
    | some r => .ok (decodeName r.name)
    | none => .error .outOfBounds
  else .ok []

/-- set_channel_name.  The table entry is overwritten and its block is
marked dirty; slot numbers in neither range are silently ignored. -/
def set_channel_name (st : RadioState) (number : Nat) (nm : List Nat) :
    RadioState :=
  let n8 := encodeName nm
  if number < 999 then
    { st with channel_name := st.channel_name.set number ⟨n8⟩,
              dirty := addDirty st.dirty (nameOffset number) }
  else if 1020 ≤ number ∧ number < 1030 then
    let i := number - 1020
    { st with wx_name := st.wx_name.set i ⟨n8⟩,
              dirty := addDirty st.dirty (wxNameOffset i) }
  else st

/-- Python list.index: the first index of the value, ValueError if absent. -/
def pyIndex [DecidableEq α] (l : List α) (v : α) : Except Err Nat :=
  if v ∈ l then .ok (l.indexOf v) else .error .valueError

/-- initialize(): writes the 16 magic bytes
80 c8 b3 08 00 01 00 08 08 00 c0 27 09 00 00 ff over the channel record,
shown here decomposed through the mem_format field layout
(ul32 little-endian freq and offset, nibble pair in byte 6). -/
def initializeMem (_r : MemRec) : MemRec :=
  { freq := 0x08b3c880, unknown1 := 0x00, mode := 0x01, tone_mode := 0x0,
    duplex := 0x0, rtone := 0x08, ctone := 0x08, dtcs := 0x00,
    cross_mode := 0xc0, offset := 0x927, unknown2 := 0xff }

/-- get_memory for an integer slot number (the string branch resolving a
special-location name is not modelled; claims address numeric slots). -/
def get_memory (T : Tables) (st : RadioState) (number : Int) :
    Except Err Memory :=
  if number < 0 ∨ number > ((THD72_SPECIAL_max : Int) + 1) then
    .error .invalidLocation
  else
    let n : Nat := number.toNat
    match st.memory[n]? with
    | none => .error .outOfBounds
    | some _mem =>
      match st.flag[n]? with
      | none => .error .outOfBounds
      | some flag =>
        let mem0 : Memory := { number := number }
        match (if n > 999 then
                 (THD72_SPECIAL_REV.lookup n).map
                   fun s => { mem0 with extd_number := s }
               else some mem0) with
        | none => .error .keyError
        | some mem1 =>
          if flag.disabled = 0x7f then .ok { mem1 with empty := true }
          else
            match get_channel_name st n with
            | .error e => .error e
            | .ok nm =>
              match TMODES.lookup _mem.tone_mode with
              | none => .error .keyError
              | some tmodeS =>
                match T.tones[_mem.rtone]? with
                | none => .error .outOfBounds
                | some rtoneV =>
                  match T.tones[_mem.ctone]? with
                  | none => .error .outOfBounds
                  | some ctoneV =>
                    match T.dtcsCodes[_mem.dtcs]? with
                    | none => .error .outOfBounds
                    | some dtcsV =>
                      match DUPLEX.lookup _mem.duplex with
                      | none => .error .keyError
                      | some duplexS =>
                        match MODES.lookup _mem.mode with
                        | none => .error .keyError
                        | some modeS =>
                          let mem2 := { mem1 with
                            name := nm, freq := _mem.freq, tmode := tmodeS,
                            rtone := rtoneV, ctone := ctoneV, dtcs := dtcsV,
                            duplex := duplexS, offset := _mem.offset,
                            mode := modeS }
                          if n < 999 then
                            match T.skipValues[flag.skip]? with
                            | none => .error .outOfBounds
                            | some skipS =>
                              match T.crossModes[_mem.cross_mode]? with
                              | none => .error .outOfBounds
                              | some crossV =>
                                .ok { mem2 with skip := skipS,
                                                cross_mode := crossV }
                          else if n > 999 then
                            match T.crossModes[0]? with
                            | none => .error .outOfBounds
                            | some crossV =>
                              let imm := ["number", "bank", "extd_number",
                                          "cross_mode"]
                              let imm := if 1020 ≤ n ∧ n < 1030 then
                                  imm ++ ["freq", "offset", "tone", "mode",
                                          "tmode", "ctone", "skip"]
                                else imm ++ ["name"]
                              .ok { mem2 with cross_mode := crossV,
                                              immutable := imm }
                          else .ok mem2

/-- set_memory.  Python mutates the parsed records in place and raises on a
failed lookup; the model returns the fully mutated state on success and an
error otherwise. -/
def set_memory (T : Tables) (st0 : RadioState) (m : Memory) :
    Except Err RadioState :=
  if m.number < 0 ∨ m.number > ((THD72_SPECIAL_max : Int) + 1) then
    .error .invalidLocation
  else
    let n : Nat := m.number.toNat
    if 1020 ≤ n ∧ n < 1030 then .ok (set_channel_name st0 n m.name)
    else
      match st0.flag[n]? with
      | none => .error .outOfBounds
      | some flag =>
        let st1 := { st0 with dirty := addDirty st0.dirty (flagOffset n) }
        let wasEmpty := flag.disabled == 0x7f
        if m.empty then
          .ok { st1 with flag := st1.flag.set n { flag with disabled := 0x7f } }
        else
          let flag1 := { flag with disabled := 0 }
          let st2 := { st1 with flag := st1.flag.set n flag1 }
          match st2.memory[n]? with
          | none => .error .outOfBounds
          | some _mem0 =>
            let st3 := { st2 with dirty := addDirty st2.dirty (memOffset n) }
            let _mem1 := if wasEmpty then initializeMem _mem0 else _mem0
            let _mem2 := { _mem1 with freq := m.freq }
            let st4 := if n < 999 then set_channel_name st3 n m.name else st3
            match TMODES_REV.lookup m.tmode with
            | none => .error .keyError
            | some tm =>
              match pyIndex T.tones m.rtone with
              | .error e => .error e
              | .ok rt =>
                match pyIndex T.tones m.ctone with
                | .error e => .error e
                | .ok ct =>
                  match pyIndex T.dtcsCodes m.dtcs with
                  | .error e => .error e
                  | .ok dt =>
                    match pyIndex T.crossModes m.cross_mode with
                    | .error e => .error e
                    | .ok cm =>
                      match DUPLEX_REV.lookup m.duplex with
                      | none => .error .keyError
                      | some dup =>
                        match MODES_REV.lookup m.mode with
                        | none => .error .keyError
                        | some md =>
                          let _mem3 := { _mem2 with
                            tone_mode := tm, rtone := rt, ctone := ct,
                            dtcs := dt, cross_mode := cm, duplex := dup,
                            offset := m.offset, mode := md }
                          let st5 := { st4 with
                            memory := st4.memory.set n _mem3 }
                          if n < 999 then
                            match pyIndex T.skipValues m.skip with
                            | .error e => .error e
                            | .ok sk =>
                              .ok { st5 with
                                flag := st5.flag.set n
                                  { flag1 with skip := sk } }
                          else .ok st5

/-- The serial pipe: an infinite stream of incoming bytes (a blocking read
with no timeout always eventually returns the requested bytes), a read
position, and the log of bytes written so far. -/
structure Pipe where
  stream : Nat → Nat
  pos : Nat
  written : List Nat
  deriving Inhabited

/-- pipe.read(n) under blocking semantics: exactly the next n stream bytes. -/
def pipeRead (p : Pipe) (n : Nat) : List Nat × Pipe :=
  ((List.range n).map fun k => p.stream (p.pos + k), { p with pos := p.pos + n })

/-- pipe.write(bs). -/
def pipeWrite (p : Pipe) (bs : List Nat) : Pipe :=
  { p with written := p.written ++ bs }

/-- struct.pack of a command frame: command byte, zero byte, 16-bit
little-endian block index, zero byte. -/
def packFrame (cmd : Nat) (block : Nat) : List Nat :=
  [cmd, 0, block % 256, block / 256, 0]

/-- read_block.  Sends the read-request frame, checks the five-byte response
header (only the command byte and the echoed block index are compared),
reads count payload bytes, then exchanges the 0x06 acknowledgement.
struct.pack raises for a block index not representable in 16 bits.  The
pipe (with its log of written bytes) is returned alongside the outcome so
that bytes put on the wire before an exception stay observable. -/
def read_block (p : Pipe) (block : Nat) (count : Nat) :
    Except Err (List Nat) × Pipe :=
  if block ≥ 65536 then (.error .packError, p)
  else
    let p1 := pipeWrite p (packFrame 0x52 block)
    let (r, p2) := pipeRead p1 5
    match r with
    | [cmd, _zero, b1, b2, _zero2] =>
      if cmd ≠ 0x57 ∨ b1 + 256 * b2 ≠ block then (.error .invalidResponse, p2)
      else
        let (data, p3) := pipeRead p2 count
        let p4 := pipeWrite p3 [0x06]
        let (a, p5) := pipeRead p4 1
        if a ≠ [0x06] then (.error .noAck, p5)
        else (.ok data, p5)
    | _ => (.error .invalidResponse, p2)

/-- The block list upload actually iterates over: range((65536/256) - 2)
when none is supplied, else the supplied list filtered to indices below
65536/256. -/
def uploadBlocks (blocks? : Option (List Nat)) : List Nat :=
  match blocks? with
  | none => List.range (65536 / 256 - 2)
  | some bs => bs.filter fun b => b < 65536 / 256

/-- The upload loop: write_block each block in order; the first block the
device does not acknowledge aborts the loop.  Returns the acknowledged
prefix and the failing block, if any.  ack models the device: whether it
acknowledges a given block. -/
def uploadLoop (ack : Nat → Bool) : List Nat → List Nat × Option Nat
  | [] => ([], none)
  | b :: bs =>
    if ack b then
      let (w, f) := uploadLoop ack bs
      (b :: w, f)
    else ([], some b)

/-- The observable outcome of upload: success flag, the NAK'd block if any,
the blocks confirmed written, and the _dirty_blocks list afterwards. -/
structure UploadResult where
  ok : Bool
  failed : Option Nat
  written : List Nat
  dirty : List Nat
  deriving DecidableEq, Repr

/-- upload (the handshake is assumed to succeed; claims concern the block
loop and the dirty-list bookkeeping).  On a NAK the RadioError propagates
before the final dirty-list comprehension runs, so dirty is returned
unchanged; on success dirty is filtered. -/
def upload (ack : Nat → Bool) (dirty : List Nat)
    (blocks? : Option (List Nat)) : UploadResult :=
  let blocks := uploadBlocks blocks?
  match uploadLoop ack blocks with
  | (w, some b) => ⟨false, some b, w, dirty⟩
  | (w, none) => ⟨true, none, w, dirty.filter fun b => !(blocks.contains b)⟩

/-- sync_out: upload the dirty list when it is non-empty, else a default
full upload. -/
def sync_out (ack : Nat → Bool) (dirty : List Nat) : UploadResult :=
  if dirty.length ≠ 0 then upload ack dirty (some dirty)
  else upload ack dirty none

/-! ## Helper lemmas -/

theorem set_of_getElem?_eq {α : Type _} :
    ∀ (l : List α) (i : Nat) (v : α), l[i]? = some v → l.set i v = l
  | [], i, v, h => by simp at h
  | a :: l, 0, v, h => by
        simp only [List.getElem?_cons_zero, Option.some.injEq] at h
        simp [h]
  | a :: l, i + 1, v, h => by
        simp only [List.getElem?_cons_succ] at h
        simp [set_of_getElem?_eq l i v h]

theorem lt_length_of_getElem?_eq_some {α : Type _} {l : List α} {i : Nat}
    {v : α} (h : l[i]? = some v) : i < l.length := by
  by_contra hc
  rw [List.getElem?_eq_none (Nat.le_of_not_lt hc)] at h
  exact Option.noConfusion h

theorem addDirty_sorted (d : List Nat) (off : Nat) :
    (addDirty d off).Sorted (· ≤ ·) :=
  List.sorted_insertionSort _ _

theorem addDirty_nodup {d : List Nat} (h : d.Nodup) (off : Nat) :
    (addDirty d off).Nodup := by
  unfold addDirty
  refine ((List.perm_insertionSort _ _).nodup_iff).2 ?_
  by_cases hm : off / 256 ∈ d
  · simpa [hm]
  · simp [hm, List.nodup_append, h]

theorem mem_addDirty (d : List Nat) (off : Nat) : off / 256 ∈ addDirty d off := by
  unfold addDirty
  rw [List.mem_insertionSort]
  by_cases hm : off / 256 ∈ d <;> simp [hm]

theorem addDirty_of_mem {d : List Nat} {off : Nat} (h : off / 256 ∈ d)
    (hs : d.Sorted (· ≤ ·)) : addDirty d off = d := by
  unfold addDirty
  simp only [if_pos h]
  exact hs.insertionSort_eq

theorem addDirty_idem (d : List Nat) (off : Nat) :
    addDirty (addDirty d off) off = addDirty d off :=
  addDirty_of_mem (mem_addDirty d off) (addDirty_sorted d off)

theorem uploadLoop_all (ack : Nat → Bool) (h : ∀ b, ack b = true) :
    ∀ l, uploadLoop ack l = (l, none) := by
  intro l
  induction l with
  | nil => rfl
  | cons b bs ih => simp [uploadLoop, h b, ih]

/-! ## Claims -/

/-- C1 (amended): when upload aborts because a block was NAK'd, the
RadioError propagates before the final dirty-list comprehension, so the
dirty-block list is left entirely unchanged — unwritten dirty blocks all
remain, and blocks confirmed written before the failure are not removed
either.  Only a fully successful upload filters the uploaded blocks out of
the dirty list. -/
theorem upload_failure_leaves_dirty_unchanged (ack : Nat → Bool)
    (dirty : List Nat) (bl : Option (List Nat)) :
    ((upload ack dirty bl).ok = false → (upload ack dirty bl).dirty = dirty) ∧
    ((upload ack dirty bl).ok = true →
      (upload ack dirty bl).dirty
        = dirty.filter fun b => !((uploadBlocks bl).contains b)) := by
  unfold upload
  rcases h : uploadLoop ack (uploadBlocks bl) with ⟨w, f⟩
  cases f <;> simp [h]

/-- Witness for C1's amended theorem: with a device that NAKs every block
and dirty list [5], the failed upload leaves the dirty list [5]. -/
theorem upload_failure_leaves_dirty_unchanged_witness :
    (upload (fun _ => false) [5] (some [5])).dirty = [5] :=
  (upload_failure_leaves_dirty_unchanged (fun _ => false) [5] (some [5])).1 rfl

/-- Counterexample to C1 as stated: device acknowledges block 0 and NAKs
block 1.  The upload fails, block 0 was confirmed written, yet block 0 is
still in the dirty list afterwards (the dirty list is [0, 1], not the
unwritten remainder [1]). -/
theorem upload_failure_dirty_cex :
    (upload (fun b => b == 0) [0, 1] (some [0, 1])).ok = false ∧
    (upload (fun b => b == 0) [0, 1] (some [0, 1])).written = [0] ∧
    (upload (fun b => b == 0) [0, 1] (some [0, 1])).dirty = [0, 1] ∧
    [0, 1] ≠ [1] := by decide

/-- C7: THD72_SPECIAL maps L0..L9/U0..U9 onto 1000..1019 (Li to 1000+2i,
Ui to 1001+2i), WX1..WX10 onto 1020..1029, C VHF/C UHF onto 1030/1031;
its values are exactly 1000..1031 in order (hence the map is a bijection
onto that range), its keys are distinct, and THD72_SPECIAL_REV is the
exact two-sided inverse. -/
theorem special_map_bijection :
    (∀ i < 10,
      THD72_SPECIAL.lookup ("L" ++ toString i) = some (1000 + 2 * i) ∧
      THD72_SPECIAL.lookup ("U" ++ toString i) = some (1000 + 2 * i + 1) ∧
      THD72_SPECIAL.lookup ("WX" ++ toString (i + 1)) = some (1020 + i)) ∧
    THD72_SPECIAL.lookup "C VHF" = some 1030 ∧
    THD72_SPECIAL.lookup "C UHF" = some 1031 ∧
    (THD72_SPECIAL.map fun p => p.2) = (List.range 32).map (fun k => 1000 + k) ∧
    (THD72_SPECIAL.map fun p => p.1).Nodup ∧
    (∀ p ∈ THD72_SPECIAL, THD72_SPECIAL_REV.lookup p.2 = some p.1) ∧
    (∀ q ∈ THD72_SPECIAL_REV, THD72_SPECIAL.lookup q.2 = some q.1) := by
  decide

/-- Witness for C7's theorem: the bounded-quantifier conjunct instantiated
at i = 3. -/
theorem special_map_bijection_witness :
    THD72_SPECIAL.lookup ("L" ++ toString 3) = some (1000 + 2 * 3) ∧
    THD72_SPECIAL.lookup ("U" ++ toString 3) = some (1000 + 2 * 3 + 1) ∧
    THD72_SPECIAL.lookup ("WX" ++ toString (3 + 1)) = some (1020 + 3) :=
  special_map_bijection.1 3 (by decide)

/-- C8: add_dirty_block divides the byte offset by 256, inserts the block
only if absent and re-sorts, so the dirty list stays duplicate-free and
sorted after every mark; marking is idempotent; offsets 0x1500 and 0x1510
mark the same single block 21; and marking a slot empty a second time via
set_memory leaves the dirty list exactly as after the first marking. -/
theorem dirty_block_invariants :
    (∀ d off, (addDirty d off).Sorted (· ≤ ·)) ∧
    (∀ (d : List Nat) off, d.Nodup → (addDirty d off).Nodup) ∧
    (∀ d off, addDirty (addDirty d off) off = addDirty d off) ∧
    addDirty (addDirty [] 0x1500) 0x1510 = [21] ∧
    (∀ T st m st1 st2, m.empty = true →
      set_memory T st m = .ok st1 → set_memory T st1 m = .ok st2 →
      st2.dirty = st1.dirty) := by
  refine ⟨addDirty_sorted, fun d off h => addDirty_nodup h off,
    addDirty_idem, by decide, ?_⟩
  intro T st m st1 st2 hm h1 h2
  unfold set_memory at h1 h2
  by_cases hv : m.number < 0 ∨ m.number > ((THD72_SPECIAL_max : Int) + 1)
  · rw [if_pos hv] at h1
    exact absurd h1 (by simp)
  · rw [if_neg hv] at h1 h2
    by_cases hw : 1020 ≤ m.number.toNat ∧ m.number.toNat < 1030
    · rw [if_pos hw] at h1 h2
      simp only [Except.ok.injEq] at h1 h2
      subst h1
      subst h2
      have hnw : ¬ m.number.toNat < 999 := by omega
      simp only [set_channel_name, if_neg hnw, if_pos hw]
      exact addDirty_idem _ _
    · rw [if_neg hw] at h1 h2
      rcases hf : st.flag[m.number.toNat]? with _ | flag
      · rw [hf] at h1
        exact absurd h1 (by simp)
      · rw [hf] at h1
        simp only [hm, eq_self_iff_true, if_true, Except.ok.injEq] at h1
        subst h1
        have hlen : m.number.toNat < st.flag.length :=
          lt_length_of_getElem?_eq_some hf
        have hf2 : ((st.flag.set m.number.toNat
            { flag with disabled := 0x7f })[m.number.toNat]?)
            = some { flag with disabled := 0x7f } :=
          List.getElem?_set_eq_of_lt _ hlen
        rw [hf2] at h2
        simp only [hm, eq_self_iff_true, if_true, Except.ok.injEq] at h2
        subst h2
        exact addDirty_idem _ _

/-- Witness for C8's theorem: the universally quantified conjuncts
instantiated at the concrete dirty list [3], offset 0x1500, and a concrete
empty-marking set_memory call. -/
theorem dirty_block_invariants_witness :
    (addDirty [3] 0x1500).Sorted (· ≤ ·) ∧ (addDirty [3] 0x1500).Nodup ∧
    addDirty (addDirty [3] 0x1500) 0x1500 = addDirty [3] 0x1500 :=
  ⟨dirty_block_invariants.1 [3] 0x1500,
   dirty_block_invariants.2.1 [3] 0x1500 (by decide),
   dirty_block_invariants.2.2.1 [3] 0x1500⟩

/-- C9: the range check accepts any number up to max(THD72_SPECIAL)+1 =
1032, so slot 1032 passes validation even though the flag and memory tables
have only indices 0..1031; both get_memory and set_memory then fault on the
out-of-bounds table access (not with the InvalidMemoryLocation rejection,
which 1033 does receive). -/
theorem slot_1032_passes_check_but_faults (T : Tables) (st : RadioState)
    (hwf : st.wf) (m : Memory) (hm : m.number = 1032) :
    THD72_SPECIAL_max + 1 = 1032 ∧
    st.flag.length = 1032 ∧
    get_memory T st 1032 = .error .outOfBounds ∧
    set_memory T st m = .error .outOfBounds ∧
    get_memory T st 1033 = .error .invalidLocation := by
  obtain ⟨hfl, hml, -, -⟩ := hwf
  have hmax : THD72_SPECIAL_max = 1031 := by decide
  refine ⟨by rw [hmax], hfl, ?_, ?_, ?_⟩
  · unfold get_memory
    rw [if_neg (by rw [hmax]; decide)]
    have h0 : st.memory[(1032 : Int).toNat]? = none :=
      List.getElem?_eq_none (by rw [hml]; decide)
    simp only [h0]
  · unfold set_memory
    rw [hm]
    rw [if_neg (by rw [hmax]; decide)]
    rw [if_neg (by decide)]
    have h0 : st.flag[(1032 : Int).toNat]? = none :=
      List.getElem?_eq_none (by rw [hfl]; decide)
    simp only [h0]
  · unfold get_memory
    rw [if_pos (by rw [hmax]; decide)]

set_option maxRecDepth 4096 in
/-- Witness for C9's theorem at a concrete well-formed image. -/
theorem slot_1032_witness :
    get_memory ⟨[], [], [], []⟩
      ⟨List.replicate 1032 ⟨0, 0, 0⟩, List.replicate 1032
        ⟨0, 0, 0, 0, 0, 0, 0, 0, 0, 0, 0⟩,
       List.replicate 1000 ⟨[]⟩, List.replicate 10 ⟨[]⟩, []⟩ 1032
      = .error .outOfBounds :=
  (slot_1032_passes_check_but_faults _ _
    ⟨by simp, by simp, by simp, by simp⟩
    { number := 1032 } rfl).2.2.1

/-- C10: the exclusion of the last two blocks applies only to the default
block range: uploadBlocks none is range 254 (blocks 254 and 255 excluded),
but a supplied block list is filtered only to indices below 256, so blocks
254 and 255 survive the filter and are written when the device
acknowledges them — in particular by sync_out when they sit in the dirty
list. -/
theorem upload_writes_supplied_high_blocks :
    uploadBlocks none = List.range 254 ∧
    (∀ l, uploadBlocks (some l) = l.filter fun b => b < 256) ∧
    (254 ∈ uploadBlocks (some [254, 255]) ∧ 255 ∈ uploadBlocks (some [254, 255])) ∧
    (254 ∉ uploadBlocks none ∧ 255 ∉ uploadBlocks none) ∧
    (∀ ack dirty, (∀ b, ack b = true) →
      (upload ack dirty (some [254, 255])).written = [254, 255] ∧
      (sync_out ack [254, 255]).written = [254, 255]) := by
  refine ⟨rfl, fun l => rfl, by decide, by decide, ?_⟩
  intro ack dirty h
  have h1 : uploadLoop ack [254, 255] = ([254, 255], none) :=
    uploadLoop_all ack h [254, 255]
  constructor
  · show (upload ack dirty (some [254, 255])).written = [254, 255]
    unfold upload
    rw [show uploadBlocks (some [254, 255]) = [254, 255] from rfl]
    simp only [h1]
  · show (sync_out ack [254, 255]).written = [254, 255]
    unfold sync_out upload
    rw [if_pos (by decide)]
    rw [show uploadBlocks (some [254, 255]) = [254, 255] from rfl]
    simp only [h1]

/-- Witness for C10's theorem: a device acknowledging everything accepts
blocks 254 and 255 from an explicitly supplied list and from sync_out. -/
theorem upload_writes_supplied_high_blocks_witness :
    (upload (fun _ => true) [] (some [254, 255])).written = [254, 255] ∧
    (sync_out (fun _ => true) [254, 255]).written = [254, 255] :=
  upload_writes_supplied_high_blocks.2.2.2.2 (fun _ => true) [] fun _ => rfl

/-- C3: for a slot number in the weather range 1020..1029, set_memory only
writes the weather-name record: a frequency (or any other non-name field)
in the incoming channel is silently dropped, the flag, memory and
channel_name tables are byte-for-byte unchanged, and the name is encoded
into the wx_name table (whose block is marked dirty). -/
theorem set_memory_weather_only_name (T : Tables) (st : RadioState)
    (m : Memory) (h1 : 1020 ≤ m.number) (h2 : m.number < 1030) :
    set_memory T st m = .ok { st with
      wx_name := st.wx_name.set (m.number.toNat - 1020) ⟨encodeName m.name⟩,
      dirty := addDirty st.dirty (wxNameOffset (m.number.toNat - 1020)) } := by
  have hv : ¬(m.number < 0 ∨ m.number > ((THD72_SPECIAL_max : Int) + 1)) := by
    rw [show THD72_SPECIAL_max = 1031 by decide]
    omega
  have hw : 1020 ≤ m.number.toNat ∧ m.number.toNat < 1030 := by omega
  unfold set_memory
  rw [if_neg hv, if_pos hw]
  unfold set_channel_name
  rw [if_neg (by omega : ¬ m.number.toNat < 999), if_pos hw]

/-! Concrete fixtures used by witnesses: an external-table instance and a
fully populated well-formed image. -/

def sampleT : Tables := ⟨[885, 670], [23, 25], [7, 9], ["", "S", "P"]⟩

def sampleFlag : Flag := ⟨0, 1, 1⟩

def sampleFlagE : Flag := ⟨0x7f, 0, 1⟩

def sampleRec : MemRec := ⟨146000000, 3, 0, 8, 1, 1, 0, 1, 1, 600000, 5⟩

def sampleName : NameRec := ⟨[65, 66, 0xff, 0xff, 0xff, 0xff, 0xff, 0xff]⟩

def sampleSt : RadioState :=
  ⟨List.replicate 1032 sampleFlag, List.replicate 1032 sampleRec,
   List.replicate 1000 sampleName,
   List.replicate 10 ⟨List.replicate 8 0xff⟩, []⟩

def sampleStE : RadioState :=
  ⟨List.replicate 1032 sampleFlagE, List.replicate 1032 sampleRec,
   List.replicate 1000 sampleName,
   List.replicate 10 ⟨List.replicate 8 0xff⟩, []⟩

/-- Witness for C3's theorem: a frequency-and-name write to weather slot
1025 only rewrites wx_name entry 5 and marks its block dirty. -/
theorem set_memory_weather_only_name_witness :
    set_memory sampleT sampleSt { number := 1025, name := [67], freq := 7 }
      = .ok { sampleSt with
          wx_name := sampleSt.wx_name.set 5 ⟨encodeName [67]⟩,
          dirty := addDirty sampleSt.dirty (wxNameOffset 5) } :=
  set_memory_weather_only_name sampleT sampleSt _ (by decide) (by decide)

set_option maxRecDepth 40000 in
/-- All indices 1000..1031 are in the reverse special map. -/
theorem rev_lookup_isSome :
    ∀ k < 1032, 999 < k → (THD72_SPECIAL_REV.lookup k).isSome = true := by
  decide

set_option maxRecDepth 40000 in
/-- No index below 1000 is in the reverse special map. -/
theorem rev_lookup_low : ∀ k < 1000, THD72_SPECIAL_REV.lookup k = none := by
  decide

/-- The channel get_memory builds for a disabled (empty) slot: number,
empty marker, and — when the reverse special map knows the slot — the
extended identifier; every other field keeps its default. -/
def emptyChannel (i : Nat) : Memory :=
  { number := (i : Int), empty := true,
    extd_number := (THD72_SPECIAL_REV.lookup i).getD "" }

/-- C5: for any in-range slot whose flag record has disabled = 0x7F,
get_memory returns a channel that is marked empty and carries only the slot
number and (for slots above 999) the extended identifier; every other field
of the returned channel still holds its default value, and no channel
record, name table or skip flag is consulted. -/
theorem get_memory_disabled_empty (T : Tables) (st : RadioState) (i : Nat)
    (hi : i ≤ 1031) (f : Flag) (mr : MemRec)
    (hmem : st.memory[i]? = some mr) (hf : st.flag[i]? = some f)
    (hd : f.disabled = 0x7f) :
    get_memory T st i = .ok (emptyChannel i) := by
  have hv : ¬((i : Int) < 0 ∨ (i : Int) > ((THD72_SPECIAL_max : Int) + 1)) := by
    rw [show THD72_SPECIAL_max = 1031 by decide]
    omega
  unfold get_memory emptyChannel
  rw [if_neg hv]
  have htn : ((i : Int)).toNat = i := Int.toNat_natCast i
  simp only [htn, hmem, hf]
  by_cases h9 : i > 999
  · obtain ⟨s, hs⟩ := Option.isSome_iff_exists.1 (rev_lookup_isSome i (by omega) h9)
    simp only [if_pos h9, hs, Option.map_some', hd, if_true, Option.getD_some]
  · simp only [if_neg h9, hd, if_true, rev_lookup_low i (by omega),
      Option.getD_none]

/-- Witness for C5's theorem: slot 1030 of an image whose flags are all
0x7F decodes to the bare empty channel tagged C VHF. -/
theorem get_memory_disabled_empty_witness :
    get_memory sampleT sampleStE 1030 = .ok (emptyChannel 1030) :=
  get_memory_disabled_empty sampleT sampleStE 1030 (by decide) sampleFlagE
    sampleRec
    (by rw [show sampleStE.memory = List.replicate 1032 sampleRec from rfl,
          List.getElem?_replicate]; decide)
    (by rw [show sampleStE.flag = List.replicate 1032 sampleFlagE from rfl,
          List.getElem?_replicate]; decide)
    rfl

/-- Evaluation of get_memory on a non-empty special slot (999 < i ≤ 1031):
given the raw records and the table lookups they hit, the decoded channel
is fully determined, including the immutable-field list. -/
theorem get_memory_special_eval (T : Tables) (st : RadioState) (i : Nat)
    (hi1 : 999 < i) (hi2 : i ≤ 1031) (f : Flag) (mr : MemRec) (s : String)
    (nm : List Nat) (ts ds ms : String) (rv cv dv xv : Nat)
    (hmem : st.memory[i]? = some mr) (hf : st.flag[i]? = some f)
    (hd : ¬ f.disabled = 0x7f)
    (hrev : THD72_SPECIAL_REV.lookup i = some s)
    (hnm : get_channel_name st i = .ok nm)
    (htm : TMODES.lookup mr.tone_mode = some ts)
    (hrt : T.tones[mr.rtone]? = some rv) (hct : T.tones[mr.ctone]? = some cv)
    (hdt : T.dtcsCodes[mr.dtcs]? = some dv)
    (hdup : DUPLEX.lookup mr.duplex = some ds)
    (hmode : MODES.lookup mr.mode = some ms)
    (hx : T.crossModes[0]? = some xv) :
    get_memory T st i = .ok
      { number := (i : Int), extd_number := s, name := nm, freq := mr.freq,
        tmode := ts, rtone := rv, ctone := cv, dtcs := dv, duplex := ds,
        offset := mr.offset, mode := ms, cross_mode := xv,
        immutable := if 1020 ≤ i ∧ i < 1030 then
            ["number", "bank", "extd_number", "cross_mode"] ++
              ["freq", "offset", "tone", "mode", "tmode", "ctone", "skip"]
          else ["number", "bank", "extd_number", "cross_mode"] ++ ["name"] } := by
  have hv : ¬((i : Int) < 0 ∨ (i : Int) > ((THD72_SPECIAL_max : Int) + 1)) := by
    rw [show THD72_SPECIAL_max = 1031 by decide]
    omega
  unfold get_memory
  rw [if_neg hv]
  simp only [Int.toNat_natCast, hmem, hf, if_pos hi1, hrev, Option.map_some']
  rw [if_neg hd]
  simp only [hnm, htm, hrt, hct, hdt, hdup, hmode]
  rw [if_neg (by omega : ¬ i < 999)]
  simp only [hx]

/-- C4 (amended): for every image state in which slots 1030 and 1020 are
not empty (disabled differs from 0x7F) and their raw codes decode, the
channel from get_memory(1030) lists name as immutable and the channel from
get_memory(1020) lists freq, offset, mode, tmode, ctone and skip as
immutable.  (When a slot is empty, get_memory returns early with an empty
channel whose immutable list is the default empty list.) -/
theorem immutable_for_band_scope_and_weather (T : Tables) (st : RadioState)
    (f30 f20 : Flag) (mr30 mr20 : MemRec)
    (nm20 : List Nat) (ts30 ds30 ms30 ts20 ds20 ms20 : String)
    (rv30 cv30 dv30 rv20 cv20 dv20 xv : Nat)
    (hm30 : st.memory[1030]? = some mr30) (hf30 : st.flag[1030]? = some f30)
    (hd30 : ¬ f30.disabled = 0x7f)
    (htm30 : TMODES.lookup mr30.tone_mode = some ts30)
    (hrt30 : T.tones[mr30.rtone]? = some rv30)
    (hct30 : T.tones[mr30.ctone]? = some cv30)
    (hdt30 : T.dtcsCodes[mr30.dtcs]? = some dv30)
    (hdup30 : DUPLEX.lookup mr30.duplex = some ds30)
    (hmode30 : MODES.lookup mr30.mode = some ms30)
    (hm20 : st.memory[1020]? = some mr20) (hf20 : st.flag[1020]? = some f20)
    (hd20 : ¬ f20.disabled = 0x7f)
    (hnm20 : get_channel_name st 1020 = .ok nm20)
    (htm20 : TMODES.lookup mr20.tone_mode = some ts20)
    (hrt20 : T.tones[mr20.rtone]? = some rv20)
    (hct20 : T.tones[mr20.ctone]? = some cv20)
    (hdt20 : T.dtcsCodes[mr20.dtcs]? = some dv20)
    (hdup20 : DUPLEX.lookup mr20.duplex = some ds20)
    (hmode20 : MODES.lookup mr20.mode = some ms20)
    (hx : T.crossModes[0]? = some xv) :
    (∃ m, get_memory T st 1030 = .ok m ∧ "name" ∈ m.immutable) ∧
    (∃ m, get_memory T st 1020 = .ok m ∧ "freq" ∈ m.immutable ∧
      "offset" ∈ m.immutable ∧ "mode" ∈ m.immutable ∧
      "tmode" ∈ m.immutable ∧ "ctone" ∈ m.immutable ∧
      "skip" ∈ m.immutable) := by
  constructor
  · refine ⟨_, get_memory_special_eval T st 1030 (by decide) (by decide)
      f30 mr30 "C VHF" [] ts30 ds30 ms30 rv30 cv30 dv30 xv
      hm30 hf30 hd30 (by decide) rfl htm30 hrt30 hct30 hdt30 hdup30
      hmode30 hx, ?_⟩
    simp
  · refine ⟨_, get_memory_special_eval T st 1020 (by decide) (by decide)
      f20 mr20 "WX1" nm20 ts20 ds20 ms20 rv20 cv20 dv20 xv
      hm20 hf20 hd20 (by decide) hnm20 htm20 hrt20 hct20 hdt20 hdup20
      hmode20 hx, ?_⟩
    refine ⟨?_, ?_, ?_, ?_, ?_, ?_⟩ <;> simp

/-- Witness for C4's amended theorem at a concrete image whose slots are
all populated and decodable. -/
theorem immutable_for_band_scope_and_weather_witness :
    (∃ m, get_memory sampleT sampleSt 1030 = .ok m ∧ "name" ∈ m.immutable) ∧
    (∃ m, get_memory sampleT sampleSt 1020 = .ok m ∧ "freq" ∈ m.immutable ∧
      "offset" ∈ m.immutable ∧ "mode" ∈ m.immutable ∧
      "tmode" ∈ m.immutable ∧ "ctone" ∈ m.immutable ∧
      "skip" ∈ m.immutable) :=
  immutable_for_band_scope_and_weather sampleT sampleSt sampleFlag sampleFlag
    sampleRec sampleRec [] "Tone" "+" "FM" "Tone" "+" "FM"
    670 885 25 670 885 25 7
    (by rw [show sampleSt.memory = List.replicate 1032 sampleRec from rfl,
          List.getElem?_replicate]; decide)
    (by rw [show sampleSt.flag = List.replicate 1032 sampleFlag from rfl,
          List.getElem?_replicate]; decide)
    (by decide) rfl rfl rfl rfl rfl rfl
    (by rw [show sampleSt.memory = List.replicate 1032 sampleRec from rfl,
          List.getElem?_replicate]; decide)
    (by rw [show sampleSt.flag = List.replicate 1032 sampleFlag from rfl,
          List.getElem?_replicate]; decide)
    (by decide) rfl rfl rfl rfl rfl rfl rfl rfl

/-- Counterexample to C4 as stated (for EVERY image state): in an image
whose flag records are all 0x7F, get_memory(1030) returns the empty
channel, whose immutable list is the default empty list and does not
include name. -/
theorem immutable_for_1030_cex :
    get_memory sampleT sampleStE 1030 = .ok (emptyChannel 1030) ∧
    "name" ∉ (emptyChannel 1030).immutable := by
  constructor
  · have h1 : sampleStE.memory[(1030 : Int).toNat]? = some sampleRec := by
      rw [show sampleStE.memory = List.replicate 1032 sampleRec from rfl,
        List.getElem?_replicate]
      decide
    have h2 : sampleStE.flag[(1030 : Int).toNat]? = some sampleFlagE := by
      rw [show sampleStE.flag = List.replicate 1032 sampleFlagE from rfl,
        List.getElem?_replicate]
      decide
    unfold get_memory
    rw [if_neg (by decide)]
    simp only [h1, h2]
    rfl
  · decide

/-- C6 (amended): for a 16-bit block index, read_block first puts exactly
the request frame 52 00 lo hi 00 (little-endian index) on the wire, and it
accepts the exchange iff the response's first byte is 0x57 and bytes 2-3
are the little-endian block index — the two zero-position bytes of the
response header are NOT checked — and the post-block acknowledgement byte
0x06 arrives after exactly count payload bytes were read. -/
theorem read_block_request_and_acceptance (s : Nat → Nat) (b count : Nat)
    (hb : b < 65536) :
    (read_block ⟨s, 0, []⟩ b count).2.written.take 5
        = [0x52, 0, b % 256, b / 256, 0] ∧
    (((read_block ⟨s, 0, []⟩ b count).1.isOk = true) ↔
      (s 0 = 0x57 ∧ s 2 + 256 * s 3 = b ∧ s (5 + count) = 6)) ∧
    (∀ d, (read_block ⟨s, 0, []⟩ b count).1 = .ok d →
      d = (List.range count).map fun k => s (5 + k)) := by
  have key : read_block ⟨s, 0, []⟩ b count =
      if s 0 ≠ 0x57 ∨ s 2 + 256 * s 3 ≠ b then
        (.error .invalidResponse, ⟨s, 5, [0x52, 0, b % 256, b / 256, 0]⟩)
      else if [s (5 + count)] ≠ [0x06] then
        (.error .noAck,
          ⟨s, 5 + count + 1, [0x52, 0, b % 256, b / 256, 0, 0x06]⟩)
      else (.ok ((List.range count).map fun k => s (5 + k)),
          ⟨s, 5 + count + 1, [0x52, 0, b % 256, b / 256, 0, 0x06]⟩) := by
    unfold read_block
    rw [if_neg (by omega)]
    rfl
  rw [key]
  by_cases h1 : s 0 ≠ 0x57 ∨ s 2 + 256 * s 3 ≠ b
  · rw [if_pos h1]
    refine ⟨rfl, ?_, ?_⟩
    · constructor
      · intro h
        simp [Except.isOk, Except.toBool] at h
      · rintro ⟨ha, hbb, -⟩
        rcases h1 with h1 | h1
        · exact absurd ha h1
        · exact absurd hbb h1
    · intro d hd
      simp at hd
  · rw [if_neg h1]
    push_neg at h1
    by_cases h2 : [s (5 + count)] ≠ [0x06]
    · rw [if_pos h2]
      refine ⟨rfl, ?_, ?_⟩
      · constructor
        · intro h
          simp [Except.isOk, Except.toBool] at h
        · rintro ⟨-, -, hc⟩
          exact (h2 (by rw [hc])).elim
      · intro d hd
        simp at hd
    · rw [if_neg h2]
      push_neg at h2
      refine ⟨rfl, ?_, ?_⟩
      · simp only [Except.isOk, Except.toBool, true_iff]
        exact ⟨h1.1, h1.2, by injection h2⟩
      · intro d hd
        simp only [Except.ok.injEq] at hd
        exact hd.symm

/-- A well-behaved device stream for block 5: response header 57 00 05 00
00, 256 zero payload bytes, then the 0x06 acknowledgement. -/
def goodStream : Nat → Nat := fun i =>
  if i = 0 then 0x57 else if i = 2 then 5 else if i = 261 then 6 else 0

/-- Witness for C6's amended theorem at block 5 with 256 payload bytes. -/
theorem read_block_request_and_acceptance_witness :
    (read_block ⟨goodStream, 0, []⟩ 5 256).2.written.take 5
        = [0x52, 0, 5 % 256, 5 / 256, 0] ∧
    (((read_block ⟨goodStream, 0, []⟩ 5 256).1.isOk = true) ↔
      (goodStream 0 = 0x57 ∧ goodStream 2 + 256 * goodStream 3 = 5 ∧
        goodStream (5 + 256) = 6)) ∧
    (∀ d, (read_block ⟨goodStream, 0, []⟩ 5 256).1 = .ok d →
      d = (List.range 256).map fun k => goodStream (5 + k)) :=
  read_block_request_and_acceptance goodStream 5 256 (by decide)

/-- A device stream whose response header is 57 01 05 00 01: correct
command byte and block index but nonzero bytes in the two zero
positions. -/
def sloppyStream : Nat → Nat := fun i =>
  if i = 0 then 0x57 else if i = 1 then 1 else if i = 2 then 5
  else if i = 4 then 1 else if i = 261 then 6 else 0

set_option maxRecDepth 40000 in
/-- Counterexample to C6 as stated: read_block(5) accepts a response whose
5-byte header is 57 01 05 00 01, which is not of the claimed mandatory
form 57 00 05 00 00 — the driver never compares the two zero-position
bytes, so no error is raised. -/
theorem read_block_header_cex :
    (read_block ⟨sloppyStream, 0, []⟩ 5 256).1.isOk = true ∧
    (pipeRead ⟨sloppyStream, 0, []⟩ 5).1 ≠ [0x57, 0, 5, 0, 0] := by
  constructor
  · rfl
  · decide

/-- Every tone-mode nibble in the TMODES table round-trips through
TMODES_REV. -/
theorem TMODES_mem_lookup {k : Nat} (h : k ∈ [0, 1, 2, 4, 8]) :
    ∃ str, TMODES.lookup k = some str ∧ TMODES_REV.lookup str = some k := by
  fin_cases h <;> exact ⟨_, rfl, rfl⟩

/-- Every duplex nibble in the DUPLEX table round-trips through
DUPLEX_REV. -/
theorem DUPLEX_mem_lookup {k : Nat} (h : k ∈ [0, 1, 2, 4]) :
    ∃ str, DUPLEX.lookup k = some str ∧ DUPLEX_REV.lookup str = some k := by
  fin_cases h <;> exact ⟨_, rfl, rfl⟩

/-- Every mode byte in the MODES table round-trips through MODES_REV. -/
theorem MODES_mem_lookup {k : Nat} (h : k ∈ [0, 1, 2]) :
    ∃ str, MODES.lookup k = some str ∧ MODES_REV.lookup str = some k := by
  fin_cases h <;> exact ⟨_, rfl, rfl⟩

/-- On a duplicate-free table, list.index inverts indexing. -/
theorem pyIndex_getElem {α : Type _} [DecidableEq α] {l : List α}
    (nd : l.Nodup) {i : Nat} (h : i < l.length) :
    pyIndex l l[i] = .ok i := by
  unfold pyIndex
  rw [if_pos (List.getElem_mem h), List.indexOf_getElem nd i h]

set_option maxHeartbeats 1000000 in
/-- C2 (amended): for an ordinary slot i ≤ 998 whose flag record has
disabled = 0 (in particular not the empty marker 0x7F), whose raw codes
all decode through the (duplicate-free) tables, and whose name record is
in canonical encoded form (content bytes free of 0xff with no trailing
whitespace, padded with 0xff — exactly the images of the name encoder),
set_memory(get_memory(i)) succeeds and leaves the flag, channel and name
tables byte-for-byte unchanged.  A nonzero disabled code is rewritten to 0
and a non-canonical name record is rewritten to its canonical form, which
is what the counterexample exhibits. -/
theorem get_set_roundtrip (T : Tables) (st : RadioState) (i : Nat)
    (hi : i ≤ 998) (f : Flag) (mr : MemRec) (nr : NameRec) (m : Memory)
    (hf : st.flag[i]? = some f) (hmem : st.memory[i]? = some mr)
    (hnr : st.channel_name[i]? = some nr)
    (hd : f.disabled = 0)
    (hcanon : encodeName (decodeName nr.name) = nr.name)
    (htm : mr.tone_mode ∈ [0, 1, 2, 4, 8])
    (hdup : mr.duplex ∈ [0, 1, 2, 4])
    (hmode : mr.mode ∈ [0, 1, 2])
    (hrt : mr.rtone < T.tones.length) (hct : mr.ctone < T.tones.length)
    (hdt : mr.dtcs < T.dtcsCodes.length)
    (hcm : mr.cross_mode < T.crossModes.length)
    (hsk : f.skip < T.skipValues.length)
    (ndT : T.tones.Nodup) (ndD : T.dtcsCodes.Nodup)
    (ndC : T.crossModes.Nodup) (ndS : T.skipValues.Nodup)
    (hgm : get_memory T st i = .ok m) :
    ∃ st1, set_memory T st m = .ok st1 ∧ st1.flag = st.flag ∧
      st1.memory = st.memory ∧ st1.channel_name = st.channel_name ∧
      st1.wx_name = st.wx_name := by
  obtain ⟨ts, hts1, hts2⟩ := TMODES_mem_lookup htm
  obtain ⟨ds, hds1, hds2⟩ := DUPLEX_mem_lookup hdup
  obtain ⟨ms, hms1, hms2⟩ := MODES_mem_lookup hmode
  have hv : ¬((i : Int) < 0 ∨ (i : Int) > ((THD72_SPECIAL_max : Int) + 1)) := by
    rw [show THD72_SPECIAL_max = 1031 by decide]
    omega
  have hne : ¬ f.disabled = 0x7f := by omega
  have hnm : get_channel_name st i = .ok (decodeName nr.name) := by
    unfold get_channel_name
    rw [if_pos (by omega : i < 999), hnr]
  have hcomp : get_memory T st i = .ok
      { number := (i : Int), name := decodeName nr.name, freq := mr.freq,
        tmode := ts, rtone := T.tones[mr.rtone], ctone := T.tones[mr.ctone],
        dtcs := T.dtcsCodes[mr.dtcs], duplex := ds, offset := mr.offset,
        mode := ms, skip := T.skipValues[f.skip],
        cross_mode := T.crossModes[mr.cross_mode] } := by
    unfold get_memory
    rw [if_neg hv]
    simp only [Int.toNat_natCast, hmem, hf,
      if_neg (show ¬ i > 999 by omega), if_neg hne, hnm, hts1,
      List.getElem?_eq_getElem hrt, List.getElem?_eq_getElem hct,
      List.getElem?_eq_getElem hdt, hds1, hms1,
      if_pos (show i < 999 by omega),
      List.getElem?_eq_getElem hsk, List.getElem?_eq_getElem hcm]
  have h0 := hcomp.symm.trans hgm
  simp only [Except.ok.injEq] at h0
  subst h0
  have hfeq : (Flag.mk 0 f.unknown0 f.skip) = f := by rw [← hd]
  have hfset : st.flag.set i f = st.flag := set_of_getElem?_eq _ _ _ hf
  have hmset : st.memory.set i mr = st.memory := set_of_getElem?_eq _ _ _ hmem
  have hnset : st.channel_name.set i nr = st.channel_name :=
    set_of_getElem?_eq _ _ _ hnr
  have hnreq : NameRec.mk nr.name = nr := rfl
  have hprt := pyIndex_getElem ndT hrt
  have hpct := pyIndex_getElem ndT hct
  have hpdt := pyIndex_getElem ndD hdt
  have hpcm := pyIndex_getElem ndC hcm
  have hpsk := pyIndex_getElem ndS hsk
  unfold set_memory
  simp only [set_channel_name, Int.toNat_natCast, hf, hmem, hd, hcanon,
    hts2, hds2, hms2, hprt, hpct, hpdt, hpcm, hpsk, hnreq, hfeq, hfset,
    hmset, hnset, if_neg hv,
    if_neg (show ¬ (1020 ≤ i ∧ i < 1030) by omega),
    if_pos (show i < 999 by omega), Nat.reduceBEq, Bool.false_eq_true,
    if_false]
  exact ⟨_, rfl, rfl, rfl, rfl, rfl⟩

/-- The channel get_memory decodes from slot 5 of the sample image. -/
def roundtripChannel : Memory :=
  { number := 5, name := [65, 66], freq := 146000000, tmode := "Tone",
    rtone := 670, ctone := 885, dtcs := 25, duplex := "+", offset := 600000,
    mode := "FM", skip := "S", cross_mode := 9 }

set_option maxRecDepth 40000 in
/-- Witness for C2's amended theorem at slot 5 of the sample image. -/
theorem get_set_roundtrip_witness :
    ∃ st1, set_memory sampleT sampleSt roundtripChannel = .ok st1 ∧
      st1.flag = sampleSt.flag ∧ st1.memory = sampleSt.memory ∧
      st1.channel_name = sampleSt.channel_name ∧
      st1.wx_name = sampleSt.wx_name :=
  get_set_roundtrip sampleT sampleSt 5 (by decide) sampleFlag sampleRec
    sampleName roundtripChannel
    (by rw [show sampleSt.flag = List.replicate 1032 sampleFlag from rfl,
          List.getElem?_replicate]; decide)
    (by rw [show sampleSt.memory = List.replicate 1032 sampleRec from rfl,
          List.getElem?_replicate]; decide)
    (by rw [show sampleSt.channel_name = List.replicate 1000 sampleName
          from rfl, List.getElem?_replicate]; decide)
    rfl rfl (by decide) (by decide) (by decide) (by decide) (by decide)
    (by decide) (by decide) (by decide) (by decide) (by decide) (by decide)
    (by decide) rfl

/-- A flag record that is not empty but has a nonzero disabled code. -/
def cexFlag : Flag := ⟨1, 0, 1⟩

/-- A name record with a trailing space before its 0xff padding. -/
def cexName : NameRec := ⟨[65, 32, 255, 255, 255, 255, 255, 255]⟩

/-- An image whose slots carry cexFlag and cexName. -/
def cexSt : RadioState :=
  ⟨List.replicate 1032 cexFlag, List.replicate 1032 sampleRec,
   List.replicate 1000 cexName, List.replicate 10 ⟨List.replicate 8 255⟩, []⟩

/-- What get_memory decodes from slot 5 of cexSt (the trailing space is
stripped from the name). -/
def cexChannel : Memory :=
  { number := 5, name := [65], freq := 146000000, tmode := "Tone",
    rtone := 670, ctone := 885, dtcs := 25, duplex := "+", offset := 600000,
    mode := "FM", skip := "S", cross_mode := 9 }

set_option maxRecDepth 40000 in
/-- Counterexample to C2 as stated: slot 5 of cexSt has disabled = 1
(not the empty marker 0x7F) and all raw codes inside the decode tables,
yet set_memory(get_memory(5)) rewrites the flag record (disabled becomes
0) and the name record (the trailing space is stripped and replaced by
0xff padding), so neither is byte-identical to its prior value. -/
theorem get_set_roundtrip_cex :
    cexFlag.disabled ≠ 0x7f ∧
    get_memory sampleT cexSt 5 = .ok cexChannel ∧
    ((set_memory sampleT cexSt cexChannel).map fun st1 =>
        (st1.flag[5]?, st1.channel_name[5]?))
      = .ok (some ⟨0, 0, 1⟩, some ⟨[65, 255, 255, 255, 255, 255, 255, 255]⟩) ∧
    cexSt.flag[5]? = some ⟨1, 0, 1⟩ ∧
    cexSt.channel_name[5]? = some ⟨[65, 32, 255, 255, 255, 255, 255, 255]⟩ ∧
    (Flag.mk 1 0 1) ≠ (Flag.mk 0 0 1) ∧
    ([65, 32, 255, 255, 255, 255, 255, 255] : List Nat)
      ≠ [65, 255, 255, 255, 255, 255, 255, 255] :=
  ⟨by decide, rfl, rfl, rfl, rfl, by decide, by decide⟩

end Thd72
